import Mathlib

/-!
# Verification of the Power reconciliation core of terraform-provider-ibm

Shallow embedding of the asynchronous remote-operation reconciliation logic of the
`ibm/service/power` package: the status-refresh functions, their pending/target state
configurations, the resize orchestration (`performChangeAndReboot`), the job waiter,
the composite-identifier codec and the bounded VPC retry helper.

Go strings are modelled as Lean `String` (for status vocabulary and error messages)
or `List Char` (for identifier tokens, where splitting lemmas are needed); Go
`error` values are modelled as `Option String` / `Except` carrying the message; the
opaque result payload of a `StateRefreshFunc` is not modelled, only its state string
and error.
-/

namespace PowerReconcile

/-! ## Status vocabulary

Modelled from the spec: the package-level status string constants live in the power
package's constants file, which is not under src/; their values follow the status
vocabulary used by the spec (§4.2 job states, §4.3 resize states) and the literal
strings that appear alongside them in the sources (`"retry"`, `"ERROR"`, `"SHUTOFF"`,
`"deleting"`, `"deleted"`, a snapshot delete wait whose `Target` is the literal
`"Not Found"` produced by `State_NotFound`). -/

def State_Delete : String := "DELETE"
def State_NotFound : String := "Not Found"
def State_Available : String := "ACTIVE"
def State_Building : String := "BUILD"
def PVMInstanceHealthOk : String := "OK"
def PVMInstanceHealthWarning : String := "WARNING"
def StatusShutoff : String := "SHUTOFF"
def StatusError : String := "ERROR"
def StatusPending : String := "PENDING"
def Status_Queued : String := "queued"
def Status_ReadyForProcessing : String := "readyForProcessing"
def Status_InProgress : String := "inProgress"
def Status_Running : String := "running"
def Status_Waiting : String := "waiting"
def Status_Completed : String := "completed"
def Status_Failed : String := "failed"
def PIVolumeProvisioning : String := "creating"
def PIVolumeProvisioningDone : String := "available"

/-! ## Data model of one reconciliation loop -/

/-- The pair a Go `resource.StateRefreshFunc` returns besides the opaque payload:
the reported state string and the error (if any). -/
structure RefreshResult where
  state : String
  err : Option String
deriving DecidableEq, Repr

/-- The `Pending`/`Target` lists of a `resource.StateChangeConf`. -/
structure StateChangeConf where
  pending : List String
  target : List String
deriving DecidableEq, Repr

/-- Terminal result of a reconciliation wait (the spec's `ReconciliationOutcome`). -/
inductive Outcome
  | converged (state : String)
  | failed (msg : String)
  | timedOut
deriving DecidableEq, Repr

/-- What one tick of the wait loop decides from a refresh result: a terminal
outcome, or `none` to keep polling. A refresh error terminates the wait with a
failure; a state in the target set converges; anything else is pending. -/
def tickOutcome (target : List String) (r : RefreshResult) : Option Outcome :=
  match r.err with
  | some e => some (.failed e)
  | none => if r.state ∈ target then some (.converged r.state) else none

/-- Modelled from the spec: the generic reconciliation loop (§4.1 StatePoller; in the
source it is `StateChangeConf.WaitForStateContext` of the terraform-plugin-sdk, which
is not under src/). Each tick invokes the refresh function: a refresh error
terminates the wait with `Failed`, a status in the target set terminates with
`Converged`, any other status is treated as pending and the loop continues; an
exhausted fetch sequence is the overall timeout, `TimedOut`. -/
def runWait (target : List String) : List RefreshResult → Outcome
  | [] => .timedOut
  | r :: rest =>
    match tickOutcome target r with
    | some o => o
    | none => runWait target rest

/-! ## Instance delete wait (resource_ibm_pi_instance.go) -/

/-- A fault object attached to a PVM instance status payload. -/
structure Fault where
  message : String
deriving DecidableEq, Repr

/-- The fields of `models.PVMInstance` the refresh functions inspect:
`*pvm.Status`, `pvm.Health.Status` and `pvm.Fault`. -/
structure PVMInstance where
  status : String
  healthStatus : String
  fault : Option Fault
deriving DecidableEq, Repr

/-- `isPIInstanceDeleteRefreshFunc` (resource_ibm_pi_instance.go:878): one call of
the returned refresh closure, as a function of the `client.Get` result. On any Get
error it reports `State_NotFound` with no error; on success it reports
`State_Delete` with no error. -/
def isPIInstanceDeleteRefreshFunc (get : Except String PVMInstance) : RefreshResult :=
  match get with
  | .error _ => { state := State_NotFound, err := none }
  | .ok _ => { state := State_Delete, err := none }

/-- The `StateChangeConf` of `isWaitForPIInstanceDeleted`
(resource_ibm_pi_instance.go:866). -/
def isWaitForPIInstanceDeletedConf : StateChangeConf :=
  { pending := ["retry", State_Delete], target := [State_Delete] }

/-! ## Volume delete wait (resource_ibm_pi_volume.go) -/

/-- The one field of `models.Volume` the refresh functions inspect. -/
structure Volume where
  state : String
deriving DecidableEq, Repr

/-- Error of a volume `client.Get`, distinguishing the typed
`*p_cloud_volumes.PcloudCloudinstancesVolumesGetNotFound` the delete refresh
unwraps from every other error. -/
inductive VolGetError
  | notFound
  | other (msg : String)
deriving DecidableEq, Repr

/-- Render a volume Get error as the message the refresh would propagate. -/
def VolGetError.message : VolGetError → String
  | .notFound => "volume not found"
  | .other m => m

/-- `isIBMPIVolumeDeleteRefreshFunc` (resource_ibm_pi_volume.go:453): on a Get error
whose unwrapped type is the typed not-found, report `"deleted"`; on any other Get
error, propagate it; on a nil volume, report `"deleted"`; otherwise `"deleting"`. -/
def isIBMPIVolumeDeleteRefreshFunc (get : Except VolGetError (Option Volume)) :
    RefreshResult :=
  match get with
  | .error .notFound => { state := "deleted", err := none }
  | .error e => { state := "", err := some e.message }
  | .ok none => { state := "deleted", err := none }
  | .ok (some _) => { state := "deleting", err := none }

/-- The `StateChangeConf` of `isWaitForIBMPIVolumeDeleted`
(resource_ibm_pi_volume.go:442). -/
def isWaitForIBMPIVolumeDeletedConf : StateChangeConf :=
  { pending := ["deleting", PIVolumeProvisioning], target := ["deleted"] }

/-! ## Instance availability / shutoff waits (resource_ibm_pi_instance.go) -/

/-- `isPIInstanceRefreshFunc` (resource_ibm_pi_instance.go:909): one call of the
refresh closure. A Get error is propagated; status `State_Available` with health
equal to `instanceReadyStatus` or `"OK"` reports `State_Available`; status
`"ERROR"` reports `"ERROR"` together with an error embedding the fault message if a
fault is present, else a generic message; every other successful fetch reports
`State_Building` with no error. -/
def isPIInstanceRefreshFunc (instanceReadyStatus : String)
    (get : Except String PVMInstance) : RefreshResult :=
  match get with
  | .error e => { state := "", err := some e }
  | .ok pvm =>
    if pvm.status = State_Available ∧
        (pvm.healthStatus = instanceReadyStatus ∨ pvm.healthStatus = PVMInstanceHealthOk) then
      { state := State_Available, err := none }
    else if pvm.status = "ERROR" then
      { state := pvm.status,
        err := some (match pvm.fault with
          | some f => "failed to create the lpar: " ++ f.message
          | none => "failed to create the lpar") }
    else
      { state := State_Building, err := none }

/-- The `StateChangeConf` of `isWaitForPIInstanceAvailable`
(resource_ibm_pi_instance.go:897). -/
def isWaitForPIInstanceAvailableConf : StateChangeConf :=
  { pending := ["PENDING", State_Building, PVMInstanceHealthWarning],
    target := [State_Available, PVMInstanceHealthOk, "ERROR", "", "SHUTOFF"] }

/-- `isPIInstanceShutoffRefreshFunc` (resource_ibm_pi_instance.go:1005): like the
availability refresh but with target status `StatusShutoff` and fatal status
`StatusError`. -/
def isPIInstanceShutoffRefreshFunc (instanceReadyStatus : String)
    (get : Except String PVMInstance) : RefreshResult :=
  match get with
  | .error e => { state := "", err := some e }
  | .ok pvm =>
    if pvm.status = StatusShutoff ∧
        (pvm.healthStatus = instanceReadyStatus ∨ pvm.healthStatus = PVMInstanceHealthOk) then
      { state := StatusShutoff, err := none }
    else if pvm.status = StatusError then
      { state := pvm.status,
        err := some (match pvm.fault with
          | some f => "failed to create the lpar: " ++ f.message
          | none => "failed to create the lpar") }
    else
      { state := State_Building, err := none }

/-- The `StateChangeConf` of `isWaitForPIInstanceShutoff`
(resource_ibm_pi_instance.go:994). -/
def isWaitForPIInstanceShutoffConf : StateChangeConf :=
  { pending := [StatusPending, State_Building, PVMInstanceHealthWarning],
    target := [PVMInstanceHealthOk, StatusError, "", StatusShutoff] }

/-! ## Volume availability wait (resource_ibm_pi_volume.go) -/

/-- `isIBMPIVolumeRefreshFunc` (resource_ibm_pi_volume.go:426): a Get error is
propagated; state `"available"` or `"in-use"` reports `PIVolumeProvisioningDone`;
every other successfully fetched state reports `PIVolumeProvisioning`. -/
def isIBMPIVolumeRefreshFunc (get : Except String Volume) : RefreshResult :=
  match get with
  | .error e => { state := "", err := some e }
  | .ok vol =>
    if vol.state = "available" ∨ vol.state = "in-use" then
      { state := PIVolumeProvisioningDone, err := none }
    else
      { state := PIVolumeProvisioning, err := none }

/-- The `StateChangeConf` of `isWaitForIBMPIVolumeAvailable`
(resource_ibm_pi_volume.go:414). -/
def isWaitForIBMPIVolumeAvailableConf : StateChangeConf :=
  { pending := ["retry", PIVolumeProvisioning], target := [PIVolumeProvisioningDone] }

/-! ## Job waiter (part_013: waitForIBMPIJobCompleted) -/

/-- The fields of `models.Status` on a job that the job refresh inspects. -/
structure JobStatus where
  state : String
  message : String
deriving DecidableEq, Repr

/-- The one field of `models.Job` the job refresh inspects; `status` is a pointer
and may be nil. -/
structure Job where
  status : Option JobStatus
deriving DecidableEq, Repr

/-- The refresh closure of `waitForIBMPIJobCompleted` (part_013:370): a Get error is
wrapped in the job-operation-failed message (`errors.GetJobOperationFailed`, an
external power-go-client constant whose exact text is not under src/ and is modelled
here); a nil job or nil job status is an error; state `Status_Failed` reports
`Status_Failed` together with an error `"job status failed for job id <id> with
message: <msg>"`; otherwise the job's state is reported with no error. -/
def jobRefreshFunc (jobID : String) (get : Except String (Option Job)) : RefreshResult :=
  match get with
  | .error e =>
    { state := "", err := some ("failed to get the job operation for job " ++ jobID ++ ": " ++ e) }
  | .ok none =>
    { state := "", err := some ("failed to get job status for job id " ++ jobID) }
  | .ok (some job) =>
    match job.status with
    | none => { state := "", err := some ("failed to get job status for job id " ++ jobID) }
    | some st =>
      if st.state = Status_Failed then
        { state := Status_Failed,
          err := some ("job status failed for job id " ++ jobID ++ " with message: " ++ st.message) }
      else
        { state := st.state, err := none }

/-- The `StateChangeConf` of `waitForIBMPIJobCompleted` (part_013:367). -/
def waitForIBMPIJobCompletedConf : StateChangeConf :=
  { pending := [Status_Queued, Status_ReadyForProcessing, Status_InProgress,
                Status_Running, Status_Waiting],
    target := [Status_Completed, Status_Failed] }

/-- A substring test, used to state that an error message carries a given text. -/
def containsSubstr (s sub : String) : Prop := sub.toList <:+: s.toList

instance (s sub : String) : Decidable (containsSubstr s sub) :=
  inferInstanceAs (Decidable (sub.toList <:+: s.toList))

/-! ## Resize orchestration (resource_ibm_pi_instance.go)

The orchestration issues actions (`client.Action` stop/start, `client.Update`) and
runs waits; each is modelled by the error it returns (`none` = success). The trace
of issued actions and observed wait completions is recorded as a list of events. -/

/-- Events of the resize orchestration: the three remote calls it issues and the
successful completions of the waits between them. -/
inductive REvent
  | stopIssued
  | stopObserved
  | updateIssued
  | mutationCleared
  | startIssued
  | runningObserved
deriving DecidableEq, Repr

/-- The environment of one orchestration run: the outcome (error or success) of
each remote call and wait, in program order. -/
structure ResizeEnv where
  stopActionErr : Option String
  stopWaitErr : Option String
  updateErr : Option String
  postUpdateWaitErr : Option String
  startActionErr : Option String
  startWaitErr : Option String
deriving DecidableEq, Repr

/-- `stopLparForResourceChange` (resource_ibm_pi_instance.go:1067): issue the
immediate-shutdown action (wrapping an action error), then wait for the instance to
be stopped (`isWaitForPIInstanceStopped`), whose error is returned unwrapped. -/
def stopLparForResourceChange (env : ResizeEnv) : Option String × List REvent :=
  match env.stopActionErr with
  | some e => (some ("failed to perform the stop action on the pvm instance " ++ e),
               [.stopIssued])
  | none =>
    match env.stopWaitErr with
    | some e => (some e, [.stopIssued])
    | none => (none, [.stopIssued, .stopObserved])

/-- `startLparAfterResourceChange` (resource_ibm_pi_instance.go:1084): issue the
start action (wrapping an action error), then wait for availability
(`isWaitForPIInstanceAvailable`), whose error is returned unwrapped. -/
def startLparAfterResourceChange (env : ResizeEnv) : Option String × List REvent :=
  match env.startActionErr with
  | some e => (some ("failed to perform the start action on the pvm instance " ++ e),
               [.startIssued])
  | none =>
    match env.startWaitErr with
    | some e => (some e, [.startIssued])
    | none => (none, [.startIssued, .runningObserved])

/-- `performChangeAndReboot` (resource_ibm_pi_instance.go:1100): stop the lpar and
wait for shutoff; on success issue the memory/processor update (wrapping an update
error); on success wait for the RESIZE/VERIFY_RESIZE transition to clear
(`isWaitforPIInstanceUpdate`, wrapping its error); on success start the lpar and
wait for it to be available again. -/
def performChangeAndReboot (env : ResizeEnv) : Option String × List REvent :=
  match stopLparForResourceChange env with
  | (some e, t) => (some e, t)
  | (none, t) =>
    match env.updateErr with
    | some e => (some ("failed to update the lpar with the change, " ++ e),
                 t ++ [.updateIssued])
    | none =>
      match env.postUpdateWaitErr with
      | some e =>
        (some ("failed to get an update from the Service after the resource change, " ++ e),
         t ++ [.updateIssued])
      | none =>
        match startLparAfterResourceChange env with
        | (r, ts) => (r, t ++ [.updateIssued, .mutationCleared] ++ ts)

/-- The `Attr_ProcType` change block of `resourceIBMPIInstanceUpdate`
(resource_ibm_pi_instance.go:601): if the stored status is `"SHUTOFF"` the stop is
skipped, otherwise `stopLparForResourceChange` runs first (aborting on error); then
the processor-type update is issued (its error returned unwrapped), the
stopped-state wait runs (`isWaitForPIInstanceStopped`), and finally
`startLparAfterResourceChange`. -/
def procTypeChangeFlow (status : String) (env : ResizeEnv) : Option String × List REvent :=
  let modify : Option String × List REvent :=
    match env.updateErr with
    | some e => (some e, [.updateIssued])
    | none =>
      match env.postUpdateWaitErr with
      | some e => (some e, [.updateIssued])
      | none =>
        match startLparAfterResourceChange env with
        | (r, ts) => (r, [.updateIssued, .mutationCleared] ++ ts)
  if status = "SHUTOFF" then
    modify
  else
    match stopLparForResourceChange env with
    | (some e, t) => (some e, t)
    | (none, t) => (modify.1, t ++ modify.2)

/-- The `Arg_SAPInstanceProfileID` change block of `resourceIBMPIInstanceUpdate`
(resource_ibm_pi_instance.go:724): same shape as the processor-type block, with the
profile update error wrapped in its own message. -/
def sapProfileChangeFlow (status : String) (env : ResizeEnv) : Option String × List REvent :=
  let modify : Option String × List REvent :=
    match env.updateErr with
    | some e => (some ("failed to update the lpar with the change for sap profile: " ++ e),
                 [.updateIssued])
    | none =>
      match env.postUpdateWaitErr with
      | some e => (some e, [.updateIssued])
      | none =>
        match startLparAfterResourceChange env with
        | (r, ts) => (r, [.updateIssued, .mutationCleared] ++ ts)
  if status = "SHUTOFF" then
    modify
  else
    match stopLparForResourceChange env with
    | (some e, t) => (some e, t)
    | (none, t) => (modify.1, t ++ modify.2)

/-! ## Composite identifier codec

Modelled from the spec: `flex.IdParts` (the `ibm/flex` package) is not under src/;
per §4.4 the codec joins segments with a fixed separator and decoding fails with a
structural error when the split does not yield exactly the expected number of
segments. Identifier tokens are modelled as `List Char`, segments must not contain
the separator `'/'` (the separator used by the source at
resource_ibm_pi_instance.go:407, `fmt.Sprintf("%s/%s", ...)`). -/

/-- The error taxonomy of §7 that decoding can meet: a malformed composite identity
is `structural`, and is distinct from the `notFoundAsDeleted` classification of an
absent remote resource. -/
inductive ErrorClass
  | structural
  | notFoundAsDeleted
deriving DecidableEq, Repr

/-- The fixed identifier separator. -/
def idSep : Char := '/'

/-- Modelled from the spec (§4.4): encode joins the segments with the separator. -/
def encodeID (segments : List (List Char)) : List Char :=
  [idSep].intercalate segments

/-- Modelled from the spec (§4.4): decode splits the token on the separator and
fails with a `structural` error unless the split yields exactly `expected` parts. -/
def decodeID (token : List Char) (expected : Nat) : Except ErrorClass (List (List Char)) :=
  let parts := token.splitOn idSep
  if parts.length = expected then .ok parts else .error .structural

/-- `splitID` (resource_ibm_pi_instance.go:1503): decode a two-segment composite
identifier via `flex.IdParts` and return its two parts. -/
def splitID (id : List Char) : Except ErrorClass (List Char × List Char) :=
  match decodeID id 2 with
  | .error e => .error e
  | .ok parts => .ok (parts.headI, parts.tail.headI)

/-- The encoding of the instance composite ID set at
resource_ibm_pi_instance.go:407: `fmt.Sprintf("%s/%s", cloudInstanceID, pvmID)`. -/
def encodeInstanceID (cloudInstanceID pvmID : List Char) : List Char :=
  cloudInstanceID ++ idSep :: pvmID

/-! ## Bounded VPC retry helper (part_012: retryCloudConnectionsVPC) -/

/-- `vpcRetryCount` (part_012:29). -/
def vpcRetryCount : Nat := 2

/-- `vpcRetryDuration` (part_012:30), in seconds (`time.Minute`). -/
def vpcRetryDurationSeconds : Nat := 60

/-- Events of the retry helper: the fixed sleep before a retry and the retry of the
originating call itself. -/
inductive VPCEvent
  | sleep
  | attempt
deriving DecidableEq, Repr

/-- The loop of `retryCloudConnectionsVPC` (part_012:527): while fewer than
`vpcRetryCount` retries have run and the last error is non-nil, sleep for the fixed
duration and re-run the originating call. `retry k` is the error of the k-th rerun
of `ccVPCRetry`. -/
def vpcRetryLoop (retry : Nat → Option String) (count : Nat) (errMsg : Option String) :
    Option String × List VPCEvent :=
  if h : count < vpcRetryCount ∧ errMsg ≠ none then
    let r := vpcRetryLoop retry (count + 1) (retry count)
    (r.1, VPCEvent.sleep :: VPCEvent.attempt :: r.2)
  else
    (errMsg, [])
termination_by vpcRetryCount - count
decreasing_by omega

/-- `retryCloudConnectionsVPC` (part_012:526): run the retry loop from count 0 on
the error of the original attempt, returning the final error and the trace of
sleeps and retries. -/
def retryCloudConnectionsVPC (retry : Nat → Option String) (errMsg : Option String) :
    Option String × List VPCEvent :=
  vpcRetryLoop retry 0 errMsg

/-! ## Theorems -/

/-- C1 (counterexample): the claim that every delete-kind wait converges as
`Converged("deleted")` on a first-tick not-found is false on the instance delete
wait: its refresh maps a not-found fetch error to `State_NotFound`, which is not a
target state, so the first tick does not converge (a one-fetch sequence times out
instead). -/
theorem instance_delete_wait_not_found_is_not_converged_deleted :
    runWait isWaitForPIInstanceDeletedConf.target
        [isPIInstanceDeleteRefreshFunc (.error "pvm instance does not exist")]
      ≠ Outcome.converged "deleted" := by
  decide

/-- C1 (amended): for the volume delete wait, a fetch sequence whose first call
reports the typed not-found error yields `Converged("deleted")` on the first tick,
for every continuation of the fetch sequence; the instance delete wait instead
reports `State_NotFound` on a fetch error, which does not terminate the wait on
that tick. -/
theorem delete_wait_not_found_classification :
    ∀ rest : List RefreshResult,
      runWait isWaitForIBMPIVolumeDeletedConf.target
          (isIBMPIVolumeDeleteRefreshFunc (.error .notFound) :: rest)
        = .converged "deleted" ∧
      ∀ e : String,
        runWait isWaitForPIInstanceDeletedConf.target
            (isPIInstanceDeleteRefreshFunc (.error e) :: rest)
          = runWait isWaitForPIInstanceDeletedConf.target rest := by
  intro rest
  constructor
  · simp [runWait, tickOutcome, isIBMPIVolumeDeleteRefreshFunc,
      isWaitForIBMPIVolumeDeletedConf]
  · intro e
    simp [runWait, tickOutcome, isPIInstanceDeleteRefreshFunc,
      isWaitForPIInstanceDeletedConf, State_NotFound, State_Delete]

/-- C2: in the instance delete wait, a successful status fetch is reported as
`State_Delete`, which belongs to both the Pending and the Target sets, so the wait
converges on the first successful fetch; a failed fetch is reported as
`State_NotFound`, which belongs to neither set. -/
theorem instance_delete_wait_first_successful_fetch_converges :
    ∀ (pvm : PVMInstance) (e : String) (rest : List RefreshResult),
      isPIInstanceDeleteRefreshFunc (.ok pvm) = ⟨State_Delete, none⟩ ∧
      State_Delete ∈ isWaitForPIInstanceDeletedConf.pending ∧
      State_Delete ∈ isWaitForPIInstanceDeletedConf.target ∧
      runWait isWaitForPIInstanceDeletedConf.target
          (isPIInstanceDeleteRefreshFunc (.ok pvm) :: rest)
        = .converged State_Delete ∧
      isPIInstanceDeleteRefreshFunc (.error e) = ⟨State_NotFound, none⟩ ∧
      State_NotFound ∉ isWaitForPIInstanceDeletedConf.pending ∧
      State_NotFound ∉ isWaitForPIInstanceDeletedConf.target := by
  intro pvm e rest
  refine ⟨rfl, by decide, by decide, ?_, rfl, by decide, by decide⟩
  simp [runWait, tickOutcome, isPIInstanceDeleteRefreshFunc,
    isWaitForPIInstanceDeletedConf]

/-- C3: composite identifiers round-trip — decoding the encoding of any ordered
sequence of 2 to 4 segments, none of which contains the separator, with the
sequence's length as the expected segment count, returns exactly the original
sequence. -/
theorem composite_id_roundtrip (S : List (List Char)) (h2 : 2 ≤ S.length)
    (h4 : S.length ≤ 4) (hsep : ∀ l ∈ S, idSep ∉ l) :
    decodeID (encodeID S) S.length = .ok S := by
  have hne : S ≠ [] := by
    intro h
    rw [h] at h2
    simp at h2
  unfold decodeID encodeID
  rw [List.splitOn_intercalate S idSep hsep hne]
  simp

/-- C3 (witness): the round-trip at the concrete two-segment sequence
`["a", "b"]`. -/
theorem composite_id_roundtrip_witness :
    decodeID (encodeID [['a'], ['b']]) [['a'], ['b']].length = .ok [['a'], ['b']] :=
  composite_id_roundtrip [['a'], ['b']] (by decide) (by decide) (by decide)

/-- C4: decoding a token whose split does not yield exactly the expected number of
segments returns the structural error, never the not-found-as-deleted
classification; in particular `splitID` is structural on every token that does
not split into exactly two segments. -/
theorem wrong_segment_count_is_structural (token : List Char) (n : Nat)
    (h : (token.splitOn idSep).length ≠ n) :
    decodeID token n = .error .structural ∧
    decodeID token n ≠ .error .notFoundAsDeleted ∧
    ∀ id : List Char, (id.splitOn idSep).length ≠ 2 →
      splitID id = .error .structural := by
  refine ⟨?_, ?_, ?_⟩
  · unfold decodeID
    simp [h]
  · unfold decodeID
    simp [h]
  · intro id hid
    unfold splitID decodeID
    simp [hid]

/-- C4 (witness): at the concrete token `"abc"` (splitting into one segment) with
expected count 2, decoding is the structural error. -/
theorem wrong_segment_count_is_structural_witness :
    decodeID ['a', 'b', 'c'] 2 = .error .structural ∧
    decodeID ['a', 'b', 'c'] 2 ≠ .error .notFoundAsDeleted ∧
    splitID ['a', 'b', 'c'] = .error .structural := by
  have h := wrong_segment_count_is_structural ['a', 'b', 'c'] 2 (by decide)
  exact ⟨h.1, h.2.1, h.2.2 ['a', 'b', 'c'] (by decide)⟩

/-- C5: the resize orchestration issues exactly one stop action; the mutating
update is only issued after the stopped state was observed; the start action is
only issued after the transitional resize states cleared; and if the wait after
the mutation fails, no start action is ever issued and the failure is returned to
the caller. -/
theorem resize_orchestration_ordering (env : ResizeEnv) :
    ((performChangeAndReboot env).2.count .stopIssued = 1) ∧
    (REvent.updateIssued ∈ (performChangeAndReboot env).2 →
      [REvent.stopIssued, .stopObserved, .updateIssued] <+: (performChangeAndReboot env).2) ∧
    (REvent.startIssued ∈ (performChangeAndReboot env).2 →
      [REvent.stopIssued, .stopObserved, .updateIssued, .mutationCleared, .startIssued]
        <+: (performChangeAndReboot env).2) ∧
    (∀ e, env.stopActionErr = none → env.stopWaitErr = none → env.updateErr = none →
      env.postUpdateWaitErr = some e →
      (performChangeAndReboot env).1
          = some ("failed to get an update from the Service after the resource change, " ++ e) ∧
      REvent.startIssued ∉ (performChangeAndReboot env).2) := by
  obtain ⟨a, b, c, d, e', f⟩ := env
  cases a <;> cases b <;> cases c <;> cases d <;> cases e' <;> cases f <;>
    simp_all [performChangeAndReboot, stopLparForResourceChange,
      startLparAfterResourceChange, List.count_cons]

/-- C5 (witness): at the environment where every step up to the post-mutation wait
succeeds and that wait fails, the orchestration returns the wrapped failure and
never issues the start action. -/
theorem resize_orchestration_ordering_witness :
    (performChangeAndReboot ⟨none, none, none, some "resize stuck", none, none⟩).1
        = some ("failed to get an update from the Service after the resource change, "
            ++ "resize stuck") ∧
    REvent.startIssued ∉
      (performChangeAndReboot ⟨none, none, none, some "resize stuck", none, none⟩).2 :=
  (resize_orchestration_ordering ⟨none, none, none, some "resize stuck", none, none⟩).2.2.2
    "resize stuck" rfl rfl rfl rfl

/-- C7: in both the processor-type and the SAP-profile change flows, when the
resource is already observed in the stopped state no stop action is issued and the
flow proceeds directly to the mutating update; otherwise exactly one stop action is
issued, before anything else. -/
theorem stop_skipped_when_already_shutoff (env : ResizeEnv) (status : String)
    (h : status ≠ "SHUTOFF") :
    ((procTypeChangeFlow "SHUTOFF" env).2.count .stopIssued = 0 ∧
     (procTypeChangeFlow "SHUTOFF" env).2.head? = some .updateIssued) ∧
    ((procTypeChangeFlow status env).2.count .stopIssued = 1 ∧
     (procTypeChangeFlow status env).2.head? = some .stopIssued) ∧
    ((sapProfileChangeFlow "SHUTOFF" env).2.count .stopIssued = 0 ∧
     (sapProfileChangeFlow "SHUTOFF" env).2.head? = some .updateIssued) ∧
    ((sapProfileChangeFlow status env).2.count .stopIssued = 1 ∧
     (sapProfileChangeFlow status env).2.head? = some .stopIssued) := by
  obtain ⟨a, b, c, d, e', f⟩ := env
  cases a <;> cases b <;> cases c <;> cases d <;> cases e' <;> cases f <;>
    simp_all [procTypeChangeFlow, sapProfileChangeFlow, stopLparForResourceChange,
      startLparAfterResourceChange, List.count_cons]

/-- C7 (witness): at the all-success environment and the concrete running status
`"ACTIVE"`, the stop-skip and stop-first behaviors of both flows. -/
theorem stop_skipped_when_already_shutoff_witness :
    ((procTypeChangeFlow "SHUTOFF" ⟨none, none, none, none, none, none⟩).2.count
        .stopIssued = 0 ∧
     (procTypeChangeFlow "SHUTOFF" ⟨none, none, none, none, none, none⟩).2.head?
        = some .updateIssued) ∧
    ((procTypeChangeFlow "ACTIVE" ⟨none, none, none, none, none, none⟩).2.count
        .stopIssued = 1 ∧
     (procTypeChangeFlow "ACTIVE" ⟨none, none, none, none, none, none⟩).2.head?
        = some .stopIssued) ∧
    ((sapProfileChangeFlow "SHUTOFF" ⟨none, none, none, none, none, none⟩).2.count
        .stopIssued = 0 ∧
     (sapProfileChangeFlow "SHUTOFF" ⟨none, none, none, none, none, none⟩).2.head?
        = some .updateIssued) ∧
    ((sapProfileChangeFlow "ACTIVE" ⟨none, none, none, none, none, none⟩).2.count
        .stopIssued = 1 ∧
     (sapProfileChangeFlow "ACTIVE" ⟨none, none, none, none, none, none⟩).2.head?
        = some .stopIssued) :=
  stop_skipped_when_already_shutoff ⟨none, none, none, none, none, none⟩ "ACTIVE"
    (by decide)

/-- C6: the job waiter's pending set is exactly Queued, ReadyForProcessing,
InProgress, Running and Waiting; a Completed job converges the wait; a Failed job
terminates the wait with a failure whose message carries the job's message field;
and on the fetch sequence running, running, failed("quota exceeded") the outcome is
a failure whose message contains "job status failed" and "quota exceeded". -/
theorem job_waiter_status_taxonomy :
    waitForIBMPIJobCompletedConf.pending
      = [Status_Queued, Status_ReadyForProcessing, Status_InProgress,
         Status_Running, Status_Waiting] ∧
    (∀ (jobID msg : String) (rest : List RefreshResult),
      runWait waitForIBMPIJobCompletedConf.target
          (jobRefreshFunc jobID (.ok (some ⟨some ⟨Status_Completed, msg⟩⟩)) :: rest)
        = .converged Status_Completed) ∧
    (∀ (jobID msg : String) (rest : List RefreshResult),
      runWait waitForIBMPIJobCompletedConf.target
          (jobRefreshFunc jobID (.ok (some ⟨some ⟨Status_Failed, msg⟩⟩)) :: rest)
        = .failed ("job status failed for job id " ++ jobID ++ " with message: " ++ msg)) ∧
    (∃ m,
      runWait waitForIBMPIJobCompletedConf.target
          [jobRefreshFunc "cc-job-1" (.ok (some ⟨some ⟨"running", ""⟩⟩)),
           jobRefreshFunc "cc-job-1" (.ok (some ⟨some ⟨"running", ""⟩⟩)),
           jobRefreshFunc "cc-job-1" (.ok (some ⟨some ⟨"failed", "quota exceeded"⟩⟩))]
        = .failed m ∧
      containsSubstr m "job status failed" ∧ containsSubstr m "quota exceeded") := by
  refine ⟨rfl, ?_, ?_, ?_⟩
  · intro jobID msg rest
    simp [runWait, tickOutcome, jobRefreshFunc, waitForIBMPIJobCompletedConf,
      Status_Completed, Status_Failed]
  · intro jobID msg rest
    simp [runWait, tickOutcome, jobRefreshFunc, Status_Failed]
  · refine ⟨"job status failed for job id cc-job-1 with message: quota exceeded", ?_, ?_, ?_⟩
    · decide
    · decide
    · decide

/-- C8: when a status fetch reports the fatal status ERROR, both the availability
wait and the shutoff wait terminate with a failure; if the payload carries a fault,
its message is embedded in the returned error, and otherwise a generic failure
message is returned. -/
theorem fatal_status_embeds_fault_message (ready health msg : String)
    (rest : List RefreshResult) :
    runWait isWaitForPIInstanceAvailableConf.target
        (isPIInstanceRefreshFunc ready (.ok ⟨"ERROR", health, some ⟨msg⟩⟩) :: rest)
      = .failed ("failed to create the lpar: " ++ msg) ∧
    runWait isWaitForPIInstanceAvailableConf.target
        (isPIInstanceRefreshFunc ready (.ok ⟨"ERROR", health, none⟩) :: rest)
      = .failed "failed to create the lpar" ∧
    runWait isWaitForPIInstanceShutoffConf.target
        (isPIInstanceShutoffRefreshFunc ready (.ok ⟨"ERROR", health, some ⟨msg⟩⟩) :: rest)
      = .failed ("failed to create the lpar: " ++ msg) ∧
    runWait isWaitForPIInstanceShutoffConf.target
        (isPIInstanceShutoffRefreshFunc ready (.ok ⟨"ERROR", health, none⟩) :: rest)
      = .failed "failed to create the lpar" := by
  refine ⟨?_, ?_, ?_, ?_⟩ <;>
    simp [runWait, tickOutcome, isPIInstanceRefreshFunc, isPIInstanceShutoffRefreshFunc,
      State_Available, StatusShutoff, StatusError]

/-- C9: in both the volume availability refresh and the instance availability
refresh, a successfully fetched status that triggers neither the target
classification nor the fatal classification — any unrecognized status string
included — is reported as the pending state with no error, and the wait loop
continues polling past it. -/
theorem unrecognized_status_is_pending (vol : Volume) (pvm : PVMInstance) (ready : String)
    (hv1 : vol.state ≠ "available") (hv2 : vol.state ≠ "in-use")
    (hp1 : pvm.status ≠ State_Available) (hp2 : pvm.status ≠ "ERROR") :
    (isIBMPIVolumeRefreshFunc (.ok vol) = ⟨PIVolumeProvisioning, none⟩ ∧
     ∀ rest, runWait isWaitForIBMPIVolumeAvailableConf.target
          (isIBMPIVolumeRefreshFunc (.ok vol) :: rest)
        = runWait isWaitForIBMPIVolumeAvailableConf.target rest) ∧
    (isPIInstanceRefreshFunc ready (.ok pvm) = ⟨State_Building, none⟩ ∧
     ∀ rest, runWait isWaitForPIInstanceAvailableConf.target
          (isPIInstanceRefreshFunc ready (.ok pvm) :: rest)
        = runWait isWaitForPIInstanceAvailableConf.target rest) := by
  have hvol : isIBMPIVolumeRefreshFunc (.ok vol) = ⟨PIVolumeProvisioning, none⟩ := by
    simp [isIBMPIVolumeRefreshFunc, hv1, hv2]
  have hpvm : isPIInstanceRefreshFunc ready (.ok pvm) = ⟨State_Building, none⟩ := by
    simp [isPIInstanceRefreshFunc, hp1, hp2]
  refine ⟨⟨hvol, ?_⟩, ⟨hpvm, ?_⟩⟩
  · intro rest
    rw [runWait, hvol]
    simp [tickOutcome, isWaitForIBMPIVolumeAvailableConf, PIVolumeProvisioning,
      PIVolumeProvisioningDone]
  · intro rest
    rw [runWait, hpvm]
    simp [tickOutcome, isWaitForPIInstanceAvailableConf, State_Building,
      State_Available, PVMInstanceHealthOk]

/-- C9 (witness): at the concrete unrecognized volume state `"migrating"` and
instance status `"UNKNOWN"`, both refreshes classify as pending and the loop
continues. -/
theorem unrecognized_status_is_pending_witness :
    (isIBMPIVolumeRefreshFunc (.ok ⟨"migrating"⟩) = ⟨PIVolumeProvisioning, none⟩ ∧
     ∀ rest, runWait isWaitForIBMPIVolumeAvailableConf.target
          (isIBMPIVolumeRefreshFunc (.ok ⟨"migrating"⟩) :: rest)
        = runWait isWaitForIBMPIVolumeAvailableConf.target rest) ∧
    (isPIInstanceRefreshFunc "OK" (.ok ⟨"UNKNOWN", "CRITICAL", none⟩)
        = ⟨State_Building, none⟩ ∧
     ∀ rest, runWait isWaitForPIInstanceAvailableConf.target
          (isPIInstanceRefreshFunc "OK" (.ok ⟨"UNKNOWN", "CRITICAL", none⟩) :: rest)
        = runWait isWaitForPIInstanceAvailableConf.target rest) :=
  unrecognized_status_is_pending ⟨"migrating"⟩ ⟨"UNKNOWN", "CRITICAL", none⟩ "OK"
    (by decide) (by decide) (by decide) (by decide)

/-- C10: the VPC transient-error retry helper retries the originating call at most
`vpcRetryCount = 2` times, sleeping the fixed `vpcRetryDuration` (one minute)
before each retry; it returns `none` as soon as any attempt (the original
included) succeeds, and otherwise returns the error of the last attempt. -/
theorem vpc_retry_bounded (retry : Nat → Option String) (errMsg : Option String) :
    vpcRetryCount = 2 ∧ vpcRetryDurationSeconds = 60 ∧
    (retryCloudConnectionsVPC retry errMsg).2.count .attempt ≤ vpcRetryCount ∧
    ((retryCloudConnectionsVPC retry errMsg).2 = [] ∨
     (retryCloudConnectionsVPC retry errMsg).2 = [.sleep, .attempt] ∨
     (retryCloudConnectionsVPC retry errMsg).2 = [.sleep, .attempt, .sleep, .attempt]) ∧
    (errMsg = none →
      (retryCloudConnectionsVPC retry errMsg).1 = none ∧
      (retryCloudConnectionsVPC retry errMsg).2 = []) ∧
    (errMsg ≠ none → retry 0 = none →
      (retryCloudConnectionsVPC retry errMsg).1 = none ∧
      (retryCloudConnectionsVPC retry errMsg).2 = [.sleep, .attempt]) ∧
    (errMsg ≠ none → retry 0 ≠ none →
      (retryCloudConnectionsVPC retry errMsg).1 = retry 1 ∧
      (retryCloudConnectionsVPC retry errMsg).2
        = [.sleep, .attempt, .sleep, .attempt]) := by
  have h2 : ∀ e2 : Option String, vpcRetryLoop retry 2 e2 = (e2, []) := by
    intro e2
    rw [vpcRetryLoop]
    simp [vpcRetryCount]
  have h1 : ∀ e1 : Option String, vpcRetryLoop retry 1 e1
      = if e1 = none then (e1, [])
        else (retry 1, [.sleep, .attempt]) := by
    intro e1
    rw [vpcRetryLoop]
    cases e1 <;> simp [vpcRetryCount, h2]
  have h0 : retryCloudConnectionsVPC retry errMsg
      = if errMsg = none then (errMsg, [])
        else if retry 0 = none then (none, [.sleep, .attempt])
        else (retry 1, [.sleep, .attempt, .sleep, .attempt]) := by
    rw [retryCloudConnectionsVPC, vpcRetryLoop]
    cases errMsg <;> simp [vpcRetryCount, h1]
    cases h : retry 0 <;> simp [h]
  rw [h0]
  cases hm : errMsg <;> cases hr : retry 0 <;>
    simp [vpcRetryCount, vpcRetryDurationSeconds, hr, List.count_cons]

/-- C10 (witness): with an original failure and both retries failing, the helper
performs exactly two sleep-then-retry rounds and returns the last attempt's
error. -/
theorem vpc_retry_bounded_witness :
    (retryCloudConnectionsVPC (fun k => some ("vpc unavailable " ++ toString k))
        (some "vpc unavailable")).1 = some "vpc unavailable 1" ∧
    (retryCloudConnectionsVPC (fun k => some ("vpc unavailable " ++ toString k))
        (some "vpc unavailable")).2 = [.sleep, .attempt, .sleep, .attempt] := by
  have h := vpc_retry_bounded (fun k => some ("vpc unavailable " ++ toString k))
    (some "vpc unavailable")
  have hc := h.2.2.2.2.2.2 (by simp) (by simp)
  simpa using hc

end PowerReconcile
